import Mathlib

set_option maxHeartbeats 1000000
set_option maxRecDepth 8000

/-!
Verification of the pvrecorder Rust binding (`src/pvrecorder.rs`).

The binding wraps a dynamically loaded native audio-capture library. We embed
the Rust code shallowly: the native library is modelled as an explicit
environment (`NativeEnv`) describing how each native entry point behaves, and
every function additionally returns the list of native calls it performed
(`NativeEvent` trace), so that resource claims (deletion, list freeing) become
statements about traces. Rust panics are modelled with the `PanicOr` outcome
type; fallible Rust functions returning `Result` become `Except`.
-/

deriving instance DecidableEq for Except

/-- Status codes returned by the PvRecorder C library
(the `PvRecorderStatus` C-repr enum in the source). -/
inductive PvRecorderStatus where
  | SUCCESS
  | OUT_OF_MEMORY
  | INVALID_ARGUMENT
  | INVALID_STATE
  | BACKEND_ERROR
  | DEVICE_ALREADY_INITIALIZED
  | DEVICE_NOT_INITIALIZED
  | IO_ERROR
  | RUNTIME_ERROR
deriving DecidableEq, Repr

/-- The integer discriminant assigned to each status code in the source:
`SUCCESS = 0` through `RUNTIME_ERROR = 8`. -/
def PvRecorderStatus.code : PvRecorderStatus → Nat
  | .SUCCESS => 0
  | .OUT_OF_MEMORY => 1
  | .INVALID_ARGUMENT => 2
  | .INVALID_STATE => 3
  | .BACKEND_ERROR => 4
  | .DEVICE_ALREADY_INITIALIZED => 5
  | .DEVICE_NOT_INITIALIZED => 6
  | .IO_ERROR => 7
  | .RUNTIME_ERROR => 8

/-- Categorization of errors (`PvRecorderErrorStatus` in the source). -/
inductive PvRecorderErrorStatus where
  | LibraryError (status : PvRecorderStatus)
  | LibraryLoadError
  | ArgumentError
  | OtherError
deriving DecidableEq, Repr

/-- Error type for PvRecorder operations (`PvRecorderError` in the source). -/
structure PvRecorderError where
  status : PvRecorderErrorStatus
  message : String
deriving DecidableEq, Repr

/-- A native C string as seen at the FFI boundary: it either decodes to valid
UTF-8 (`CStr::to_str` succeeds) or it does not. -/
inductive NativeStr where
  | valid (s : String)
  | invalid
deriving DecidableEq, Repr

/-- `CStr::to_str` at the boundary: `some` on valid UTF-8, `none` otherwise. -/
def NativeStr.decode : NativeStr → Option String
  | .valid s => some s
  | .invalid => none

/-- One observable native interaction performed by the binding: a dynamic
library load or a call through one of the resolved entry points.  Handles
are modelled as the numeric pointer value (0 = null). -/
inductive NativeEvent where
  | loadLibrary (path : String)
  | initCall (frame_length device_index buffered_frames_count : Int)
  | deleteCall (handle : Nat)
  | startCall (handle : Nat)
  | stopCall (handle : Nat)
  | readCall (handle : Nat)
  | getSelectedDeviceCall (handle : Nat)
  | sampleRateCall
  | versionCall
  | getAvailableDevicesCall
  | freeAvailableDevicesCall (count : Int)
deriving DecidableEq, Repr

/-- Behaviour of the external world (dynamic loader plus native library) as
observed through the entry points the binding uses.  Each field describes the
outcome the corresponding native call would produce. -/
structure NativeEnv where
  /-- does `Library::new` succeed for the given path -/
  libOpens : Bool
  /-- loader error text when opening fails -/
  libOpenErr : String
  /-- exported symbol names resolvable in the library -/
  symbols : List String
  /-- loader error text when resolving a given symbol fails -/
  symbolErr : String → String
  /-- status returned by `pv_recorder_init` -/
  initStatus : PvRecorderStatus
  /-- value written to the out-parameter handle by `pv_recorder_init` (0 = null) -/
  initOut : Nat
  /-- C string returned by `pv_recorder_get_selected_device` -/
  selectedDevice : NativeStr
  /-- value returned by `pv_recorder_sample_rate` -/
  sampleRateVal : Int
  /-- C string returned by `pv_recorder_version` -/
  versionStr : NativeStr
  /-- status returned by `pv_recorder_start` -/
  startStatus : PvRecorderStatus
  /-- status returned by `pv_recorder_stop` -/
  stopStatus : PvRecorderStatus
  /-- status returned by `pv_recorder_read` -/
  readStatus : PvRecorderStatus
  /-- samples `pv_recorder_read` writes into the buffer on success -/
  pcm : Nat → Int
  /-- status returned by `pv_recorder_get_available_devices` -/
  devicesStatus : PvRecorderStatus
  /-- device-name C strings produced by `pv_recorder_get_available_devices` -/
  devices : List NativeStr

/-- Outcome of a Rust call that may also panic: either a panic with its
message, or a normally returned value. -/
inductive PanicOr (α : Type) where
  | panicked (msg : String)
  | returned (v : α)
deriving DecidableEq, Repr

/-- Rust's `as usize` cast from a (signed) integer on a 64-bit target. -/
def as_usize (x : Int) : Nat := (x % (2 : Int) ^ 64).toNat

/-- Effect of a successful `pv_recorder_read` on the caller's buffer: the
first `k` entries are overwritten with the incoming samples, the rest keep
their previous values; the length never changes. -/
def writeFrame (buffer : List Int) (pcm : Nat → Int) (k : Nat) : List Int :=
  (List.range buffer.length).map fun i => if i < k then pcm i else buffer.getD i 0

/-- `load_library_fn` from the source: resolves one symbol from the loaded
library, wrapping any loader failure in a `LibraryLoadError`. -/
def load_library_fn (env : NativeEnv) (function_name : String) :
    Except PvRecorderError String :=
  if env.symbols.contains function_name then .ok function_name
  else .error ⟨.LibraryLoadError,
    "Failed to load function symbol from pvrecorder library: "
      ++ env.symbolErr function_name⟩

/-- `check_fn_call_status` from the source: maps `SUCCESS` to `Ok` and any
other native status to a `LibraryError` carrying that status verbatim. -/
def check_fn_call_status (status : PvRecorderStatus) (function_name : String) :
    Except PvRecorderError Unit :=
  match status with
  | .SUCCESS => .ok ()
  | s => .error ⟨.LibraryError s,
      "Function \x27" ++ function_name ++ "\x27 in the pvrecorder library failed"⟩

/-- The 12 exported entry-point names `PvRecorderInnerVTable::new` resolves,
in source order. -/
def requiredSymbols : List String :=
  ["pv_recorder_init", "pv_recorder_delete", "pv_recorder_start",
   "pv_recorder_stop", "pv_recorder_read", "pv_recorder_set_debug_logging",
   "pv_recorder_get_is_recording", "pv_recorder_get_selected_device",
   "pv_recorder_get_available_devices", "pv_recorder_free_available_devices",
   "pv_recorder_sample_rate", "pv_recorder_version"]

/-- `PvRecorderInnerVTable` from the source: the table of 12 resolved entry
points.  Resolved symbols are modelled by their name token; the behaviour of
calling them lives in `NativeEnv`. -/
structure PvRecorderInnerVTable where
  pv_recorder_init : String
  pv_recorder_delete : String
  pv_recorder_start : String
  pv_recorder_stop : String
  pv_recorder_read : String
  pv_recorder_set_debug_logging : String
  pv_recorder_get_is_recording : String
  pv_recorder_get_selected_device : String
  pv_recorder_get_available_devices : String
  pv_recorder_free_available_devices : String
  pv_recorder_sample_rate : String
  pv_recorder_version : String
deriving DecidableEq, Repr

/-- `PvRecorderInnerVTable::new` from the source: resolves all 12 entry points
in order, propagating the first resolution failure (each Rust `?` is an early
return with the error). -/
def PvRecorderInnerVTable.new (env : NativeEnv) :
    Except PvRecorderError PvRecorderInnerVTable :=
  match load_library_fn env "pv_recorder_init" with
  | .error e => .error e
  | .ok pv_recorder_init =>
  match load_library_fn env "pv_recorder_delete" with
  | .error e => .error e
  | .ok pv_recorder_delete =>
  match load_library_fn env "pv_recorder_start" with
  | .error e => .error e
  | .ok pv_recorder_start =>
  match load_library_fn env "pv_recorder_stop" with
  | .error e => .error e
  | .ok pv_recorder_stop =>
  match load_library_fn env "pv_recorder_read" with
  | .error e => .error e
  | .ok pv_recorder_read =>
  match load_library_fn env "pv_recorder_set_debug_logging" with
  | .error e => .error e
  | .ok pv_recorder_set_debug_logging =>
  match load_library_fn env "pv_recorder_get_is_recording" with
  | .error e => .error e
  | .ok pv_recorder_get_is_recording =>
  match load_library_fn env "pv_recorder_get_selected_device" with
  | .error e => .error e
  | .ok pv_recorder_get_selected_device =>
  match load_library_fn env "pv_recorder_get_available_devices" with
  | .error e => .error e
  | .ok pv_recorder_get_available_devices =>
  match load_library_fn env "pv_recorder_free_available_devices" with
  | .error e => .error e
  | .ok pv_recorder_free_available_devices =>
  match load_library_fn env "pv_recorder_sample_rate" with
  | .error e => .error e
  | .ok pv_recorder_sample_rate =>
  match load_library_fn env "pv_recorder_version" with
  | .error e => .error e
  | .ok pv_recorder_version =>
    .ok { pv_recorder_init, pv_recorder_delete, pv_recorder_start,
          pv_recorder_stop, pv_recorder_read, pv_recorder_set_debug_logging,
          pv_recorder_get_is_recording, pv_recorder_get_selected_device,
          pv_recorder_get_available_devices, pv_recorder_free_available_devices,
          pv_recorder_sample_rate, pv_recorder_version }

/-- The fully resolved table produced when every required symbol is present. -/
def fullVTable : PvRecorderInnerVTable :=
  { pv_recorder_init := "pv_recorder_init"
    pv_recorder_delete := "pv_recorder_delete"
    pv_recorder_start := "pv_recorder_start"
    pv_recorder_stop := "pv_recorder_stop"
    pv_recorder_read := "pv_recorder_read"
    pv_recorder_set_debug_logging := "pv_recorder_set_debug_logging"
    pv_recorder_get_is_recording := "pv_recorder_get_is_recording"
    pv_recorder_get_selected_device := "pv_recorder_get_selected_device"
    pv_recorder_get_available_devices := "pv_recorder_get_available_devices"
    pv_recorder_free_available_devices := "pv_recorder_free_available_devices"
    pv_recorder_sample_rate := "pv_recorder_sample_rate"
    pv_recorder_version := "pv_recorder_version" }

/-- `PvRecorderInner` from the source: one native session, grouping the
(non-null) native handle, the cached immutable properties and the entry-point
table (which keeps the loaded library alive). -/
structure PvRecorderInner where
  cpvrecorder : Nat
  frame_length : Int
  sample_rate : Int
  selected_device : String
  version : String
  vtable : PvRecorderInnerVTable
deriving DecidableEq, Repr

/-- `PvRecorderInner::init` from the source.  Opens the library, builds the
vtable, calls `pv_recorder_init`, rejects a null out-parameter, then fetches
and decodes the selected device name, the sample rate and the version string.
Every Rust `?` is an early `Except.error` return; the second component is the
trace of native interactions performed before returning. -/
def PvRecorderInner.init (frame_length device_index buffered_frames_count : Int)
    (library_path : String) (env : NativeEnv) :
    Except PvRecorderError PvRecorderInner × List NativeEvent :=
  if !env.libOpens then
    (.error ⟨.LibraryLoadError,
      "Failed to load pvrecorder dynamic library: " ++ env.libOpenErr⟩,
     [.loadLibrary library_path])
  else
    match PvRecorderInnerVTable.new env with
    | .error e => (.error e, [.loadLibrary library_path])
    | .ok vtable =>
      let ev1 : List NativeEvent :=
        [.loadLibrary library_path,
         .initCall frame_length device_index buffered_frames_count]
      match check_fn_call_status env.initStatus "pv_recorder_init" with
      | .error e => (.error e, ev1)
      | .ok _ =>
        if env.initOut = 0 then
          (.error ⟨.OtherError,
            "pv_recorder_init returned SUCCESS but pointer is null"⟩, ev1)
        else
          let cpvrecorder := env.initOut
          let ev2 := ev1 ++ [.getSelectedDeviceCall cpvrecorder]
          match env.selectedDevice.decode with
          | none =>
            (.error ⟨.OtherError, "Failed to convert selected device string"⟩, ev2)
          | some selected_device =>
            let sample_rate := env.sampleRateVal
            let ev3 := ev2 ++ [.sampleRateCall]
            let ev4 := ev3 ++ [.versionCall]
            match env.versionStr.decode with
            | none =>
              (.error ⟨.OtherError, "Failed to convert version string"⟩, ev4)
            | some version =>
              (.ok { cpvrecorder, frame_length, sample_rate, selected_device,
                     version, vtable }, ev4)

/-- `PvRecorderInner::start` from the source: one status-checked call to
`pv_recorder_start`. -/
def PvRecorderInner.start (self : PvRecorderInner) (env : NativeEnv) :
    Except PvRecorderError Unit × List NativeEvent :=
  (check_fn_call_status env.startStatus "pv_recorder_start",
   [.startCall self.cpvrecorder])

/-- `PvRecorderInner::stop` from the source: one status-checked call to
`pv_recorder_stop`. -/
def PvRecorderInner.stop (self : PvRecorderInner) (env : NativeEnv) :
    Except PvRecorderError Unit × List NativeEvent :=
  (check_fn_call_status env.stopStatus "pv_recorder_stop",
   [.stopCall self.cpvrecorder])

/-- `PvRecorderInner::read_into` from the source.  First the `assert!` that
the buffer holds at least `frame_length` (as `usize`) samples — its violation
is a panic, not an `Error` —, then a status-checked call to
`pv_recorder_read`, which on success fills the first `frame_length` entries
of the buffer.  Returns the resulting buffer contents. -/
def PvRecorderInner.read_into (self : PvRecorderInner) (buffer : List Int)
    (env : NativeEnv) :
    PanicOr (Except PvRecorderError (List Int)) × List NativeEvent :=
  if buffer.length < as_usize self.frame_length then
    (.panicked ("buffer length " ++ toString buffer.length
      ++ " is less than frame_length " ++ toString self.frame_length), [])
  else
    match check_fn_call_status env.readStatus "pv_recorder_read" with
    | .ok _ =>
      (.returned (.ok (writeFrame buffer env.pcm (as_usize self.frame_length))),
       [.readCall self.cpvrecorder])
    | .error e => (.returned (.error e), [.readCall self.cpvrecorder])

/-- `PvRecorderInner::read` from the source: allocates a zeroed buffer of
exactly `frame_length` (as `usize`) samples, delegates to `read_into`, and
returns the filled buffer. -/
def PvRecorderInner.read (self : PvRecorderInner) (env : NativeEnv) :
    PanicOr (Except PvRecorderError (List Int)) × List NativeEvent :=
  let frame : List Int := List.replicate (as_usize self.frame_length) 0
  self.read_into frame env

/-- The decoding loop of `PvRecorderInner::get_available_devices`: copies each
native device-name C string into an owned `String`; the Rust `?` inside the
loop is an early return with the error of the first undecodable entry. -/
def decodeDevices : List NativeStr → Except PvRecorderError (List String)
  | [] => .ok []
  | d :: rest =>
    match d.decode with
    | none => .error ⟨.OtherError, "Failed to convert device strings"⟩
    | some s =>
      match decodeDevices rest with
      | .error e => .error e
      | .ok tail => .ok (s :: tail)

/-- `PvRecorderInner::get_available_devices` from the source.  Opens the
library, builds the vtable, calls the native enumeration entry point, runs the
decoding loop (`decodeDevices`), and calls the paired native free entry point
only after the loop completes — an early return from the loop skips it. -/
def PvRecorderInner.get_available_devices (library_path : String)
    (env : NativeEnv) :
    Except PvRecorderError (List String) × List NativeEvent :=
  if !env.libOpens then
    (.error ⟨.LibraryLoadError,
      "Failed to load pvrecorder dynamic library: " ++ env.libOpenErr⟩,
     [.loadLibrary library_path])
  else
    match PvRecorderInnerVTable.new env with
    | .error e => (.error e, [.loadLibrary library_path])
    | .ok _ =>
      let ev1 : List NativeEvent :=
        [.loadLibrary library_path, .getAvailableDevicesCall]
      match check_fn_call_status env.devicesStatus
          "pv_recorder_get_available_devices" with
      | .error e => (.error e, ev1)
      | .ok _ =>
        match decodeDevices env.devices with
        | .error e => (.error e, ev1)
        | .ok device_list =>
          (.ok device_list,
           ev1 ++ [.freeAvailableDevicesCall (env.devices.length : Int)])

/-- `impl Drop for PvRecorderInner` from the source: the native interactions
performed when the session is torn down — a single `pv_recorder_delete` call
on the owned handle. -/
def PvRecorderInner.dropEvents (self : PvRecorderInner) : List NativeEvent :=
  [.deleteCall self.cpvrecorder]

/-- `PvRecorderBuilder` from the source (the `library_path` is produced by the
external platform path-resolution collaborator). -/
structure PvRecorderBuilder where
  frame_length : Int
  device_index : Int
  buffered_frames_count : Int
  library_path : String
deriving DecidableEq, Repr

/-- The public façade (`PvRecorder` in the source): an `Arc`-shared reference
to one `PvRecorderInner` session. -/
structure PvRecorder where
  inner : PvRecorderInner
deriving DecidableEq, Repr

/-- `PvRecorderBuilder::init` from the source: validates `frame_length`,
`device_index` and `buffered_frames_count` (in that order) before any native
interaction, then delegates to `PvRecorderInner::init` and wraps the session
in the façade. -/
def PvRecorderBuilder.init (self : PvRecorderBuilder) (env : NativeEnv) :
    Except PvRecorderError PvRecorder × List NativeEvent :=
  if self.frame_length ≤ 0 then
    (.error ⟨.ArgumentError,
      "frame_length must be greater than 0, got: " ++ toString self.frame_length⟩,
     [])
  else if self.device_index < -1 then
    (.error ⟨.ArgumentError,
      "device_index must be >= -1, got: " ++ toString self.device_index⟩, [])
  else if self.buffered_frames_count ≤ 0 then
    (.error ⟨.ArgumentError,
      "buffered_frames_count must be greater than 0, got: "
        ++ toString self.buffered_frames_count⟩, [])
  else
    let r := PvRecorderInner.init self.frame_length self.device_index
      self.buffered_frames_count self.library_path env
    (r.1.map fun inner => { inner }, r.2)

/-- `PvRecorderBuilder::get_available_devices` from the source: delegates to
`PvRecorderInner::get_available_devices` with the configured library path. -/
def PvRecorderBuilder.get_available_devices (self : PvRecorderBuilder)
    (env : NativeEnv) : Except PvRecorderError (List String) × List NativeEvent :=
  PvRecorderInner.get_available_devices self.library_path env

/-- `PvRecorderBuilder::init` viewed with explicit state passing for the
receiver.  The source method takes `&self` (a shared reference) and the
builder struct has no interior mutability, so the receiver the caller retains
after the call is the unchanged builder; the embedding makes that explicit by
returning it. -/
def PvRecorderBuilder.init_ref (self : PvRecorderBuilder) (env : NativeEnv) :
    (Except PvRecorderError PvRecorder × List NativeEvent) × PvRecorderBuilder :=
  (self.init env, self)

/-- `PvRecorderBuilder::get_available_devices` with explicit state passing
for the `&self` receiver, as in `PvRecorderBuilder.init_ref`. -/
def PvRecorderBuilder.get_available_devices_ref (self : PvRecorderBuilder)
    (env : NativeEnv) :
    (Except PvRecorderError (List String) × List NativeEvent) × PvRecorderBuilder :=
  (self.get_available_devices env, self)

/-- `PvRecorder::read` from the source: forwards to the session. -/
def PvRecorder.read (self : PvRecorder) (env : NativeEnv) :
    PanicOr (Except PvRecorderError (List Int)) × List NativeEvent :=
  self.inner.read env

/-- `PvRecorder::read_into` from the source: forwards to the session. -/
def PvRecorder.read_into (self : PvRecorder) (buffer : List Int)
    (env : NativeEnv) :
    PanicOr (Except PvRecorderError (List Int)) × List NativeEvent :=
  self.inner.read_into buffer env

/-- `PvRecorder::start` from the source: forwards to the session. -/
def PvRecorder.start (self : PvRecorder) (env : NativeEnv) :
    Except PvRecorderError Unit × List NativeEvent :=
  self.inner.start env

/-- `PvRecorder::stop` from the source: forwards to the session. -/
def PvRecorder.stop (self : PvRecorder) (env : NativeEnv) :
    Except PvRecorderError Unit × List NativeEvent :=
  self.inner.stop env

/-- Number of `pv_recorder_delete` calls in a trace. -/
def countDelete (evs : List NativeEvent) : Nat :=
  evs.countP fun e => match e with | .deleteCall _ => true | _ => false

/-- Number of `pv_recorder_free_available_devices` calls in a trace. -/
def countFree (evs : List NativeEvent) : Nat :=
  evs.countP fun e => match e with | .freeAvailableDevicesCall _ => true | _ => false

/-- A well-behaved native environment used to instantiate theorems. -/
def goodEnv : NativeEnv :=
  { libOpens := true
    libOpenErr := ""
    symbols := requiredSymbols
    symbolErr := fun s => "undefined symbol: " ++ s
    initStatus := .SUCCESS
    initOut := 1
    selectedDevice := .valid "MacBook Microphone"
    sampleRateVal := 16000
    versionStr := .valid "1.2.7"
    startStatus := .SUCCESS
    stopStatus := .SUCCESS
    readStatus := .SUCCESS
    pcm := fun _ => 7
    devicesStatus := .SUCCESS
    devices := [.valid "Device 0"] }

/-- A concrete session as produced by a successful `init` against `goodEnv`. -/
def innerGood : PvRecorderInner :=
  { cpvrecorder := 1, frame_length := 512, sample_rate := 16000,
    selected_device := "MacBook Microphone", version := "1.2.7",
    vtable := fullVTable }

/-- `goodEnv`, except `pv_recorder_init` reports success while writing a null
handle to the out-parameter. -/
def envNull : NativeEnv := { goodEnv with initOut := 0 }

/-- `goodEnv`, except the exported symbol `pv_recorder_stop` is missing. -/
def envMissing : NativeEnv :=
  { goodEnv with symbols := requiredSymbols.erase "pv_recorder_stop" }

/-- `goodEnv`, except the selected-device C string is not valid UTF-8. -/
def envBadDevice : NativeEnv := { goodEnv with selectedDevice := .invalid }

/-- `goodEnv`, except the version C string is not valid UTF-8. -/
def envBadVersion : NativeEnv := { goodEnv with versionStr := .invalid }

/-- `goodEnv`, except the second enumerated device name is not valid UTF-8. -/
def envBadList : NativeEnv :=
  { goodEnv with devices := [.valid "Device 0", .invalid] }

/-- When every required symbol resolves, the table is built in full. -/
theorem vtable_new_all (env : NativeEnv)
    (hsym : ∀ n ∈ requiredSymbols, n ∈ env.symbols) :
    PvRecorderInnerVTable.new env = .ok fullVTable := by
  have h1 := hsym "pv_recorder_init" (by simp [requiredSymbols])
  have h2 := hsym "pv_recorder_delete" (by simp [requiredSymbols])
  have h3 := hsym "pv_recorder_start" (by simp [requiredSymbols])
  have h4 := hsym "pv_recorder_stop" (by simp [requiredSymbols])
  have h5 := hsym "pv_recorder_read" (by simp [requiredSymbols])
  have h6 := hsym "pv_recorder_set_debug_logging" (by simp [requiredSymbols])
  have h7 := hsym "pv_recorder_get_is_recording" (by simp [requiredSymbols])
  have h8 := hsym "pv_recorder_get_selected_device" (by simp [requiredSymbols])
  have h9 := hsym "pv_recorder_get_available_devices" (by simp [requiredSymbols])
  have h10 := hsym "pv_recorder_free_available_devices" (by simp [requiredSymbols])
  have h11 := hsym "pv_recorder_sample_rate" (by simp [requiredSymbols])
  have h12 := hsym "pv_recorder_version" (by simp [requiredSymbols])
  simp [PvRecorderInnerVTable.new, load_library_fn, fullVTable,
    h1, h2, h3, h4, h5, h6, h7, h8, h9, h10, h11, h12]

/-- The construction of the entry-point table fails exactly at the first
unresolvable required symbol, with a `LibraryLoadError` wrapping the loader's
error text for that symbol. -/
theorem vtable_new_missing (env : NativeEnv) (s : String)
    (hmiss : requiredSymbols.find? (fun n => !(env.symbols.contains n)) = some s) :
    PvRecorderInnerVTable.new env =
      .error ⟨.LibraryLoadError,
        "Failed to load function symbol from pvrecorder library: "
          ++ env.symbolErr s⟩ := by
  by_cases h1 : "pv_recorder_init" ∈ env.symbols
  · by_cases h2 : "pv_recorder_delete" ∈ env.symbols
    · by_cases h3 : "pv_recorder_start" ∈ env.symbols
      · by_cases h4 : "pv_recorder_stop" ∈ env.symbols
        · by_cases h5 : "pv_recorder_read" ∈ env.symbols
          · by_cases h6 : "pv_recorder_set_debug_logging" ∈ env.symbols
            · by_cases h7 : "pv_recorder_get_is_recording" ∈ env.symbols
              · by_cases h8 : "pv_recorder_get_selected_device" ∈ env.symbols
                · by_cases h9 : "pv_recorder_get_available_devices" ∈ env.symbols
                  · by_cases h10 : "pv_recorder_free_available_devices" ∈ env.symbols
                    · by_cases h11 : "pv_recorder_sample_rate" ∈ env.symbols
                      · by_cases h12 : "pv_recorder_version" ∈ env.symbols
                        · simp [requiredSymbols, h1, h2, h3, h4, h5, h6, h7, h8, h9, h10, h11, h12] at hmiss
                        · simp [requiredSymbols, h1, h2, h3, h4, h5, h6, h7, h8, h9, h10, h11, h12] at hmiss
                          subst hmiss
                          simp [PvRecorderInnerVTable.new, load_library_fn, h1, h2, h3, h4, h5, h6, h7, h8, h9, h10, h11, h12]
                      · simp [requiredSymbols, h1, h2, h3, h4, h5, h6, h7, h8, h9, h10, h11] at hmiss
                        subst hmiss
                        simp [PvRecorderInnerVTable.new, load_library_fn, h1, h2, h3, h4, h5, h6, h7, h8, h9, h10, h11]
                    · simp [requiredSymbols, h1, h2, h3, h4, h5, h6, h7, h8, h9, h10] at hmiss
                      subst hmiss
                      simp [PvRecorderInnerVTable.new, load_library_fn, h1, h2, h3, h4, h5, h6, h7, h8, h9, h10]
                  · simp [requiredSymbols, h1, h2, h3, h4, h5, h6, h7, h8, h9] at hmiss
                    subst hmiss
                    simp [PvRecorderInnerVTable.new, load_library_fn, h1, h2, h3, h4, h5, h6, h7, h8, h9]
                · simp [requiredSymbols, h1, h2, h3, h4, h5, h6, h7, h8] at hmiss
                  subst hmiss
                  simp [PvRecorderInnerVTable.new, load_library_fn, h1, h2, h3, h4, h5, h6, h7, h8]
              · simp [requiredSymbols, h1, h2, h3, h4, h5, h6, h7] at hmiss
                subst hmiss
                simp [PvRecorderInnerVTable.new, load_library_fn, h1, h2, h3, h4, h5, h6, h7]
            · simp [requiredSymbols, h1, h2, h3, h4, h5, h6] at hmiss
              subst hmiss
              simp [PvRecorderInnerVTable.new, load_library_fn, h1, h2, h3, h4, h5, h6]
          · simp [requiredSymbols, h1, h2, h3, h4, h5] at hmiss
            subst hmiss
            simp [PvRecorderInnerVTable.new, load_library_fn, h1, h2, h3, h4, h5]
        · simp [requiredSymbols, h1, h2, h3, h4] at hmiss
          subst hmiss
          simp [PvRecorderInnerVTable.new, load_library_fn, h1, h2, h3, h4]
      · simp [requiredSymbols, h1, h2, h3] at hmiss
        subst hmiss
        simp [PvRecorderInnerVTable.new, load_library_fn, h1, h2, h3]
    · simp [requiredSymbols, h1, h2] at hmiss
      subst hmiss
      simp [PvRecorderInnerVTable.new, load_library_fn, h1, h2]
  · simp [requiredSymbols, h1] at hmiss
    subst hmiss
    simp [PvRecorderInnerVTable.new, load_library_fn, h1]


/-- A successfully constructed session records the requested frame length, the
sample rate, device name and version fetched at construction, and the non-null
native handle produced by `pv_recorder_init`. -/
theorem inner_init_ok (fl di bfc : Int) (path : String) (env : NativeEnv)
    (inner : PvRecorderInner)
    (h : (PvRecorderInner.init fl di bfc path env).1 = .ok inner) :
    inner.frame_length = fl ∧ inner.sample_rate = env.sampleRateVal ∧
    inner.cpvrecorder = env.initOut ∧ inner.cpvrecorder ≠ 0 := by
  unfold PvRecorderInner.init at h
  split at h
  · simp at h
  · split at h
    · simp at h
    · split at h
      · simp at h
      · split at h
        · simp at h
        · split at h
          · simp at h
          · split at h
            · simp at h
            · simp at h
              cases h
              simp_all

/-- A successfully built recorder implies the three argument validations
passed, and the façade wraps a session satisfying `inner_init_ok`. -/
theorem builder_init_ok (b : PvRecorderBuilder) (env : NativeEnv) (r : PvRecorder)
    (h : (b.init env).1 = .ok r) :
    0 < b.frame_length ∧ (-1 : Int) ≤ b.device_index ∧
    0 < b.buffered_frames_count ∧
    r.inner.frame_length = b.frame_length ∧
    r.inner.sample_rate = env.sampleRateVal ∧
    r.inner.cpvrecorder = env.initOut ∧ r.inner.cpvrecorder ≠ 0 := by
  unfold PvRecorderBuilder.init at h
  split at h
  · simp at h
  · split at h
    · simp at h
    · split at h
      · simp at h
      · rcases hx : (PvRecorderInner.init b.frame_length b.device_index
            b.buffered_frames_count b.library_path env).1 with e | inner
        · simp [hx, Except.map] at h
        · simp [hx, Except.map] at h
          have hk := inner_init_ok _ _ _ _ _ _ hx
          cases h
          exact ⟨by omega, by omega, by omega, hk.1, hk.2.1, hk.2.2.1, hk.2.2.2⟩

/-- A status-checked native call succeeds exactly when the native status is
`SUCCESS`. -/
theorem check_ok_iff (s : PvRecorderStatus) (n : String) :
    check_fn_call_status s n = .ok () ↔ s = .SUCCESS := by
  cases s <;> simp [check_fn_call_status]

/-- A non-`SUCCESS` native status is wrapped, verbatim, in a `LibraryError`
naming the failing entry point. -/
theorem check_err (s : PvRecorderStatus) (n : String) (h : s ≠ .SUCCESS) :
    check_fn_call_status s n = .error ⟨.LibraryError s,
      "Function \x27" ++ n ++ "\x27 in the pvrecorder library failed"⟩ := by
  cases s <;> simp_all [check_fn_call_status]

/-- `as usize` is the identity on values representable in 64 bits. -/
theorem as_usize_eq (x : Int) (h0 : 0 ≤ x) (h1 : x < 2 ^ 64) :
    as_usize x = x.toNat := by
  unfold as_usize
  rw [Int.emod_eq_of_lt h0 h1]

/-- `writeFrame` never changes the buffer length. -/
theorem writeFrame_length (buffer : List Int) (pcm : Nat → Int) (k : Nat) :
    (writeFrame buffer pcm k).length = buffer.length := by
  simp [writeFrame]

/-- The decoding loop fails with the device-string conversion error whenever
any entry of the native list is undecodable. -/
theorem decodeDevices_invalid (l : List NativeStr) (h : NativeStr.invalid ∈ l) :
    decodeDevices l = .error ⟨.OtherError, "Failed to convert device strings"⟩ := by
  induction l with
  | nil => cases h
  | cons d rest ih =>
    cases d with
    | invalid => simp [decodeDevices, NativeStr.decode]
    | valid s =>
      have hrest : NativeStr.invalid ∈ rest := by
        rcases List.mem_cons.mp h with h | h
        · exact absurd h (by simp)
        · exact h
      simp [decodeDevices, NativeStr.decode, ih hrest]

/-- Claim C4: for every builder configuration with `frame_length ≤ 0`, or
`device_index < -1`, or `buffered_frames_count ≤ 0`, `init` returns an
`ArgumentError` whose message names the offending field (checked in that
order) and its actual value, and does so with an empty native-interaction
trace: the library is not loaded and no native call is made, so no native
resource is acquired from an invalid configuration. -/
theorem claim_C4 (b : PvRecorderBuilder) (env : NativeEnv)
    (h : b.frame_length ≤ 0 ∨ b.device_index < -1 ∨ b.buffered_frames_count ≤ 0) :
    b.init env =
      (.error ⟨.ArgumentError,
        if b.frame_length ≤ 0 then
          "frame_length must be greater than 0, got: " ++ toString b.frame_length
        else if b.device_index < -1 then
          "device_index must be >= -1, got: " ++ toString b.device_index
        else
          "buffered_frames_count must be greater than 0, got: "
            ++ toString b.buffered_frames_count⟩, []) := by
  by_cases h1 : b.frame_length ≤ 0
  · simp [PvRecorderBuilder.init, h1]
  · by_cases h2 : b.device_index < -1
    · simp [PvRecorderBuilder.init, h1, h2]
    · by_cases h3 : b.buffered_frames_count ≤ 0
      · simp [PvRecorderBuilder.init, h1, h2, h3]
      · exact absurd h (by simp [h1, h2, h3])

/-- Witness for C4 at the concrete builder with `frame_length = 0`. -/
theorem claim_C4_witness :
    PvRecorderBuilder.init ⟨0, -1, 50, "lib"⟩ goodEnv =
      (.error ⟨.ArgumentError, "frame_length must be greater than 0, got: 0"⟩,
       []) := by
  have h := claim_C4 ⟨0, -1, 50, "lib"⟩ goodEnv (Or.inl (by decide))
  rw [h]
  decide

/-- Claim C6: whenever the native init entry point reports `SUCCESS` but
leaves the out-parameter handle null, `init` returns the dedicated
internal-consistency error — an `OtherError`, which is neither a
`LibraryError` (native status) nor an `ArgumentError` — instead of accepting
the null handle. -/
theorem claim_C6 (fl di bfc : Int) (path : String) (env : NativeEnv)
    (hlib : env.libOpens = true)
    (hsym : ∀ n ∈ requiredSymbols, n ∈ env.symbols)
    (hst : env.initStatus = .SUCCESS) (hnull : env.initOut = 0) :
    (PvRecorderInner.init fl di bfc path env).1 =
      .error ⟨.OtherError,
        "pv_recorder_init returned SUCCESS but pointer is null"⟩ ∧
    (∀ c, PvRecorderErrorStatus.OtherError ≠ .LibraryError c) ∧
    PvRecorderErrorStatus.OtherError ≠ .ArgumentError := by
  refine ⟨?_, by intro c; simp, by simp⟩
  simp [PvRecorderInner.init, hlib, vtable_new_all env hsym, hst, hnull,
    check_fn_call_status]

/-- Witness for C6 at `envNull`. -/
theorem claim_C6_witness :
    (PvRecorderInner.init 512 (-1) 50 "lib" envNull).1 =
      .error ⟨.OtherError,
        "pv_recorder_init returned SUCCESS but pointer is null"⟩ :=
  (claim_C6 512 (-1) 50 "lib" envNull rfl (by decide) rfl rfl).1

/-- Claim C3: when any of the 12 required entry points cannot be resolved,
entry-point-table construction fails with a `LibraryLoadError` wrapping the
loader's error text for the first missing symbol; provided that text names
the symbol (as the platform loader's diagnostics do), so does the message;
and no table value is produced at all — no caller can obtain a partial
table. -/
theorem claim_C3 (env : NativeEnv) (s : String)
    (hmiss : requiredSymbols.find? (fun n => !(env.symbols.contains n)) = some s)
    (hname : ∃ p q, env.symbolErr s = p ++ s ++ q) :
    PvRecorderInnerVTable.new env =
      .error ⟨.LibraryLoadError,
        "Failed to load function symbol from pvrecorder library: "
          ++ env.symbolErr s⟩ ∧
    (∃ p q, "Failed to load function symbol from pvrecorder library: "
        ++ env.symbolErr s = p ++ s ++ q) ∧
    ∀ t, PvRecorderInnerVTable.new env ≠ .ok t := by
  have h := vtable_new_missing env s hmiss
  refine ⟨h, ?_, ?_⟩
  · obtain ⟨p, q, hpq⟩ := hname
    refine ⟨"Failed to load function symbol from pvrecorder library: " ++ p, q, ?_⟩
    rw [hpq]
    simp [String.append_assoc]
  · intro t ht
    rw [h] at ht
    simp at ht

/-- Witness for C3 at `envMissing`, whose first (and only) missing symbol is
`pv_recorder_stop`. -/
theorem claim_C3_witness :
    PvRecorderInnerVTable.new envMissing =
      .error ⟨.LibraryLoadError,
        "Failed to load function symbol from pvrecorder library: undefined symbol: pv_recorder_stop"⟩ := by
  have h := (claim_C3 envMissing "pv_recorder_stop" (by decide)
    ⟨"undefined symbol: ", "", by decide⟩).1
  rw [h]
  decide

/-- Claim C5: `start`, `stop`, `read` and `read_into` (with an adequately
sized buffer) return `Ok` exactly when the corresponding native entry point
reports `SUCCESS`; every non-`SUCCESS` status is wrapped, verbatim, in a
`LibraryError`; and the embedded status table is one-to-one with the
discriminants `SUCCESS = 0` through `RUNTIME_ERROR = 8`. -/
theorem claim_C5 (inner : PvRecorderInner) (buffer : List Int) (env : NativeEnv)
    (hbuf : as_usize inner.frame_length ≤ buffer.length) :
    ((inner.start env).1 = .ok () ↔ env.startStatus = .SUCCESS) ∧
    (env.startStatus ≠ .SUCCESS →
      (inner.start env).1 = .error ⟨.LibraryError env.startStatus,
        "Function \x27" ++ "pv_recorder_start"
          ++ "\x27 in the pvrecorder library failed"⟩) ∧
    ((inner.stop env).1 = .ok () ↔ env.stopStatus = .SUCCESS) ∧
    (env.stopStatus ≠ .SUCCESS →
      (inner.stop env).1 = .error ⟨.LibraryError env.stopStatus,
        "Function \x27" ++ "pv_recorder_stop"
          ++ "\x27 in the pvrecorder library failed"⟩) ∧
    ((∃ l, (inner.read_into buffer env).1 = .returned (.ok l)) ↔
      env.readStatus = .SUCCESS) ∧
    (env.readStatus ≠ .SUCCESS →
      (inner.read_into buffer env).1 =
        .returned (.error ⟨.LibraryError env.readStatus,
          "Function \x27" ++ "pv_recorder_read"
            ++ "\x27 in the pvrecorder library failed"⟩)) ∧
    ((∃ l, (inner.read env).1 = .returned (.ok l)) ↔
      env.readStatus = .SUCCESS) ∧
    (∀ a b : PvRecorderStatus, a.code = b.code → a = b) ∧
    PvRecorderStatus.SUCCESS.code = 0 ∧
    PvRecorderStatus.OUT_OF_MEMORY.code = 1 ∧
    PvRecorderStatus.INVALID_ARGUMENT.code = 2 ∧
    PvRecorderStatus.INVALID_STATE.code = 3 ∧
    PvRecorderStatus.BACKEND_ERROR.code = 4 ∧
    PvRecorderStatus.DEVICE_ALREADY_INITIALIZED.code = 5 ∧
    PvRecorderStatus.DEVICE_NOT_INITIALIZED.code = 6 ∧
    PvRecorderStatus.IO_ERROR.code = 7 ∧
    PvRecorderStatus.RUNTIME_ERROR.code = 8 := by
  have hnp : ¬ (buffer.length < as_usize inner.frame_length) := not_lt.mpr hbuf
  refine ⟨?_, ?_, ?_, ?_, ?_, ?_, ?_, ?_, rfl, rfl, rfl, rfl, rfl, rfl, rfl, rfl, rfl⟩
  · cases hs : env.startStatus <;>
      simp [PvRecorderInner.start, check_fn_call_status, hs]
  · intro hne
    simp only [PvRecorderInner.start]
    exact check_err _ _ hne
  · cases hs : env.stopStatus <;>
      simp [PvRecorderInner.stop, check_fn_call_status, hs]
  · intro hne
    simp only [PvRecorderInner.stop]
    exact check_err _ _ hne
  · cases hs : env.readStatus <;>
      simp [PvRecorderInner.read_into, check_fn_call_status, hs, hnp]
  · intro hne
    simp only [PvRecorderInner.read_into, hnp, if_false]
    rw [check_err _ _ hne]
  · cases hs : env.readStatus <;>
      simp [PvRecorderInner.read, PvRecorderInner.read_into,
        check_fn_call_status, hs]
  · intro a b hab
    cases a <;> cases b <;> simp_all [PvRecorderStatus.code]

/-- Witness for C5 at `innerGood`, a frame-sized buffer and `goodEnv`. -/
theorem claim_C5_witness :
    (innerGood.start goodEnv).1 = .ok () ↔ goodEnv.startStatus = .SUCCESS :=
  (claim_C5 innerGood (List.replicate 512 0) goodEnv (by decide)).1

/-- Claim C7: every undecodable native string — the selected device name or
the library version fetched at `init`, or an enumerated device name in
`get_available_devices` — makes the operation return the string-conversion
error (realized in the source as the `OtherError` category), and in
enumeration the whole partial list is discarded; the operation returns an
error value rather than crashing. -/
theorem claim_C7 :
    (∀ (fl di bfc : Int) (path : String) (env : NativeEnv),
      env.libOpens = true → (∀ n ∈ requiredSymbols, n ∈ env.symbols) →
      env.initStatus = .SUCCESS → env.initOut ≠ 0 →
      env.selectedDevice = .invalid →
      (PvRecorderInner.init fl di bfc path env).1 =
        .error ⟨.OtherError, "Failed to convert selected device string"⟩) ∧
    (∀ (fl di bfc : Int) (path : String) (env : NativeEnv) (d : String),
      env.libOpens = true → (∀ n ∈ requiredSymbols, n ∈ env.symbols) →
      env.initStatus = .SUCCESS → env.initOut ≠ 0 →
      env.selectedDevice = .valid d → env.versionStr = .invalid →
      (PvRecorderInner.init fl di bfc path env).1 =
        .error ⟨.OtherError, "Failed to convert version string"⟩) ∧
    (∀ (path : String) (env : NativeEnv),
      env.libOpens = true → (∀ n ∈ requiredSymbols, n ∈ env.symbols) →
      env.devicesStatus = .SUCCESS → NativeStr.invalid ∈ env.devices →
      (PvRecorderInner.get_available_devices path env).1 =
        .error ⟨.OtherError, "Failed to convert device strings"⟩) := by
  refine ⟨?_, ?_, ?_⟩
  · intro fl di bfc path env hlib hsym hst hnn hsel
    simp [PvRecorderInner.init, hlib, vtable_new_all env hsym, hst, hnn, hsel,
      check_fn_call_status, NativeStr.decode]
  · intro fl di bfc path env d hlib hsym hst hnn hsel hver
    simp [PvRecorderInner.init, hlib, vtable_new_all env hsym, hst, hnn, hsel,
      hver, check_fn_call_status, NativeStr.decode]
  · intro path env hlib hsym hst hmem
    simp [PvRecorderInner.get_available_devices, hlib, vtable_new_all env hsym,
      hst, check_fn_call_status, decodeDevices_invalid env.devices hmem]

/-- Witness for C7 at `envBadDevice`. -/
theorem claim_C7_witness :
    (PvRecorderInner.init 512 (-1) 50 "lib" envBadDevice).1 =
      .error ⟨.OtherError, "Failed to convert selected device string"⟩ :=
  claim_C7.1 512 (-1) 50 "lib" envBadDevice rfl (by decide) rfl (by decide) rfl

/-- Claim C8: `read_into` panics — the `assert!` contract-violation signal,
distinguishable from a recoverable `Error` value — exactly when the buffer is
shorter than `frame_length`; with a buffer of at least `frame_length` samples
it never panics and forwards to the native `pv_recorder_read` entry point. -/
theorem claim_C8 (rec : PvRecorder) (buffer : List Int) (env : NativeEnv)
    (hpos : 0 < rec.inner.frame_length)
    (hrange : rec.inner.frame_length < 2 ^ 31) :
    (buffer.length < rec.inner.frame_length.toNat →
      rec.read_into buffer env =
        (.panicked ("buffer length " ++ toString buffer.length
          ++ " is less than frame_length " ++ toString rec.inner.frame_length),
         [])) ∧
    (rec.inner.frame_length.toNat ≤ buffer.length →
      (∀ m, (rec.read_into buffer env).1 ≠ .panicked m) ∧
      (rec.read_into buffer env).2 = [.readCall rec.inner.cpvrecorder]) := by
  have hcast : as_usize rec.inner.frame_length = rec.inner.frame_length.toNat :=
    as_usize_eq _ (le_of_lt hpos) (lt_trans hrange (by norm_num))
  constructor
  · intro hlt
    simp [PvRecorder.read_into, PvRecorderInner.read_into, hcast, hlt]
  · intro hge
    have hnp : ¬ (buffer.length < as_usize rec.inner.frame_length) := by
      rw [hcast]; exact not_lt.mpr hge
    constructor
    · intro m
      cases hs : env.readStatus <;>
        simp [PvRecorder.read_into, PvRecorderInner.read_into, hnp,
          check_fn_call_status, hs]
    · cases hs : env.readStatus <;>
        simp [PvRecorder.read_into, PvRecorderInner.read_into, hnp,
          check_fn_call_status, hs]

/-- Witness for C8: a 100-sample buffer against frame length 512 panics with
the assertion message. -/
theorem claim_C8_witness :
    PvRecorder.read_into ⟨innerGood⟩ (List.replicate 100 0) goodEnv =
      (.panicked "buffer length 100 is less than frame_length 512", []) := by
  have h := (claim_C8 ⟨innerGood⟩ (List.replicate 100 0) goodEnv
    (by decide) (by decide)).1 (by decide)
  rw [h]
  decide

/-- Claim C9: for every successfully initialized recorder and every `read`
call in which the native read entry point reports `SUCCESS`, the returned
sample sequence has length exactly the configured `frame_length`. -/
theorem claim_C9 (b : PvRecorderBuilder) (envI envR : NativeEnv)
    (r : PvRecorder)
    (hinit : (b.init envI).1 = .ok r) (hfl : b.frame_length < 2 ^ 31)
    (hread : envR.readStatus = .SUCCESS) :
    ∃ l, (r.read envR).1 = .returned (.ok l) ∧
      l.length = b.frame_length.toNat ∧ 0 < b.frame_length := by
  have hb := builder_init_ok b envI r hinit
  have hflr : r.inner.frame_length = b.frame_length := hb.2.2.2.1
  have hcast : as_usize r.inner.frame_length = r.inner.frame_length.toNat :=
    as_usize_eq _ (by rw [hflr]; exact le_of_lt hb.1)
      (by rw [hflr]; exact lt_trans hfl (by norm_num))
  refine ⟨writeFrame (List.replicate (as_usize r.inner.frame_length) 0) envR.pcm
    (as_usize r.inner.frame_length), ?_, ?_, hb.1⟩
  · simp [PvRecorder.read, PvRecorderInner.read, PvRecorderInner.read_into,
      hread, check_fn_call_status]
  · rw [writeFrame_length, List.length_replicate, hcast, hflr]

/-- Witness for C9 at the default-style builder and `goodEnv`. -/
theorem claim_C9_witness :
    ∃ l, (PvRecorder.read ⟨innerGood⟩ goodEnv).1 = .returned (.ok l) ∧
      l.length = (512 : Int).toNat ∧ 0 < (512 : Int) := by
  have h := claim_C9 ⟨512, -1, 50, "lib"⟩ goodEnv goodEnv ⟨innerGood⟩
    (by decide) (by decide) rfl
  exact h

/-- Claim C10: `init` and `get_available_devices` take the builder by shared
reference and leave every field unchanged, so one builder can be reused: two
`init` calls from the same builder yield recorders with the same configured
frame length. -/
theorem claim_C10 (b : PvRecorderBuilder) (env env2 : NativeEnv)
    (r r2 : PvRecorder)
    (h : (b.init env).1 = .ok r) (h2 : (b.init env2).1 = .ok r2) :
    (b.init_ref env).2 = b ∧ (b.get_available_devices_ref env).2 = b ∧
    r.inner.frame_length = b.frame_length ∧
    r2.inner.frame_length = b.frame_length ∧
    r.inner.frame_length = r2.inner.frame_length := by
  have hb := builder_init_ok b env r h
  have hb2 := builder_init_ok b env2 r2 h2
  exact ⟨rfl, rfl, hb.2.2.2.1, hb2.2.2.2.1,
    by rw [hb.2.2.2.1, hb2.2.2.2.1]⟩

/-- Witness for C10 at the concrete builder and `goodEnv` twice. -/
theorem claim_C10_witness :
    (PvRecorderBuilder.init_ref ⟨512, -1, 50, "lib"⟩ goodEnv).2 =
      ⟨512, -1, 50, "lib"⟩ :=
  (claim_C10 ⟨512, -1, 50, "lib"⟩ goodEnv goodEnv ⟨innerGood⟩ ⟨innerGood⟩
    (by decide) (by decide)).1

/-- Claim C1 (evaluated at the failing input): when the selected-device
string fails to decode after `pv_recorder_init` has already succeeded and
produced a non-null handle, `PvRecorderInner::init` returns the conversion
error without ever invoking `pv_recorder_delete` — the trace of the whole
construction contains the successful `pv_recorder_init` call but zero delete
calls, and since no session value exists, no later drop can delete the handle
either.  By contrast, a fully successful construction followed by the
session's drop contains exactly one delete call. -/
theorem claim_C1_eval :
    (PvRecorderInner.init 512 (-1) 50 "lib" envBadDevice).1 =
      .error ⟨.OtherError, "Failed to convert selected device string"⟩ ∧
    NativeEvent.initCall 512 (-1) 50 ∈
      (PvRecorderInner.init 512 (-1) 50 "lib" envBadDevice).2 ∧
    countDelete (PvRecorderInner.init 512 (-1) 50 "lib" envBadDevice).2 = 0 ∧
    countDelete ((PvRecorderInner.init 512 (-1) 50 "lib" goodEnv).2 ++
      (match (PvRecorderInner.init 512 (-1) 50 "lib" goodEnv).1 with
       | .ok inner => inner.dropEvents
       | .error _ => [])) = 1 := by
  decide

/-- Claim C2 (evaluated at the failing input): when one enumerated device
name fails to decode, `get_available_devices` returns the conversion error
but the trace contains the native enumeration call and zero calls to
`pv_recorder_free_available_devices` — the early return inside the decoding
loop skips the free, leaking the native list.  On the success path the free
is invoked exactly once. -/
theorem claim_C2_eval :
    (PvRecorderInner.get_available_devices "lib" envBadList).1 =
      .error ⟨.OtherError, "Failed to convert device strings"⟩ ∧
    NativeEvent.getAvailableDevicesCall ∈
      (PvRecorderInner.get_available_devices "lib" envBadList).2 ∧
    countFree (PvRecorderInner.get_available_devices "lib" envBadList).2 = 0 ∧
    countFree (PvRecorderInner.get_available_devices "lib" goodEnv).2 = 1 := by
  decide
